/-
Verification of the CMR lifecycle engine, status helpers, photo upload and
PDF export pipeline of the `cimer` repository.

The definitions below are a shallow embedding of the TypeScript source:
  * `src/lib/utils/signature-upload.ts` — the lifecycle actions
    (`performCmrAction`, `startLoading`, `endLoading`, `startDelivery`,
    `completeDelivery`), embedded as pure functions over an explicit
    database state, returning the result, the new state and the trace of
    store operations performed;
  * `src/lib/utils/status-helpers.ts` — status sets and predicates, and
    `uploadCmrPhoto` with its storage/database consistency cleanup;
  * `src/lib/utils/pdf-generator.ts` — the export pipeline, embedded as a
    state-passing layout program producing a list of pages of drawing
    primitives.
-/

import Mathlib

namespace Cimer

/-! ## Status enumeration (`status-helpers.ts`, type `CmrStatus`) -/

inductive CmrStatus
  | draft
  | ready_to_load
  | loading
  | in_transit
  | ready_to_deliver
  | completed
  | completed_with_reserves
  deriving DecidableEq, Repr

/-- The total order of §status lifecycle, used only in theorems:
`ready_to_load < loading < in_transit < ready_to_deliver < {completed,
completed_with_reserves}` (with `draft` below everything, and the two
terminal states sharing the top rank). -/
def statusRank : CmrStatus → Nat
  | .draft => 0
  | .ready_to_load => 1
  | .loading => 2
  | .in_transit => 3
  | .ready_to_deliver => 4
  | .completed => 5
  | .completed_with_reserves => 5

/-! ## Character-level string utilities

Models of the JavaScript string methods the source uses
(`substring`, `split`), implemented over the character list so that
they evaluate by plain structural recursion. -/

namespace JsStr

/-- Is `needle` a prefix of `hay`? -/
def charsPrefix : List Char → List Char → Bool
  | [], _ => true
  | _ :: _, [] => false
  | a :: as, b :: bs => a = b && charsPrefix as bs

/-- Does `hay` contain `needle` as a contiguous sublist? -/
def charsContains (needle : List Char) : List Char → Bool
  | [] => charsPrefix needle []
  | c :: rest => charsPrefix needle (c :: rest) || charsContains needle rest

/-- Substring containment on strings. -/
def strContains (hay needle : String) : Bool :=
  charsContains needle.data hay.data

/-- JS `s.substring(0, n)`. -/
def substringPrefix (n : Nat) (s : String) : String :=
  String.mk (s.data.take n)

/-- JS `s.split('.')` (used for the file extension). -/
def splitOnDot : List Char → List (List Char)
  | [] => [[]]
  | c :: rest =>
    let r := splitOnDot rest
    if c = '.' then [] :: r
    else
      match r with
      | h :: t => (c :: h) :: t
      | [] => [[c]]

end JsStr

/-! ## Lifecycle engine (`signature-upload.ts`) -/

namespace Lifecycle

inductive PartyType
  | shipper
  | consignee
  deriving DecidableEq, Repr

inductive ReserveSide
  | loading
  | delivery
  deriving DecidableEq, Repr

structure DocumentRow where
  id : String
  status : CmrStatus
  deriving DecidableEq, Repr

structure SignatureRow where
  id : String
  cmr_id : String
  party_type : PartyType
  deriving DecidableEq, Repr

structure ReserveRow where
  id : String
  cmr_id : String
  side : ReserveSide
  deriving DecidableEq, Repr

/-- Metadata attached to a `cmr_events` row: `{}` for the three first
actions, `{status, has_reserves}` for `delivery_end`. -/
inductive EventMetadata
  | empty
  | deliveryEnd (status : CmrStatus) (has_reserves : Bool)
  deriving DecidableEq, Repr

structure EventRow where
  cmr_id : String
  user_id : String
  type : String
  metadata : EventMetadata
  deriving DecidableEq, Repr

/-- The relational state the lifecycle actions read and mutate. -/
structure Db where
  documents : List DocumentRow
  signatures : List SignatureRow
  reserves : List ReserveRow
  events : List EventRow
  deriving DecidableEq, Repr

/-- One store operation, recorded in the order the action performs it. -/
inductive StoreOp
  | readSignatures (cmr_id : String) (party : PartyType)
  | readReserves (cmr_id : String)
  | insertEvent (e : EventRow)
  | updateStatus (cmr_id : String) (status : CmrStatus)
  deriving DecidableEq, Repr

def StoreOp.isWrite : StoreOp → Bool
  | .insertEvent _ => true
  | .updateStatus _ _ => true
  | _ => false

/-- The writes of a trace, in order. -/
def writesOf (tr : List StoreOp) : List StoreOp :=
  tr.filter StoreOp.isWrite

/-- `supabase.from('cmr_documents').update({status}).eq('id', cmrId)`. -/
def updateStatus (cmrId : String) (s : CmrStatus) (db : Db) : Db :=
  { db with documents :=
      db.documents.map (fun d => if d.id = cmrId then { d with status := s } else d) }

/-- `supabase.from('cmr_events').insert({...})`. -/
def insertEvent (e : EventRow) (db : Db) : Db :=
  { db with events := db.events ++ [e] }

/-- The status of document `cmrId` in `db`, if the document exists. -/
def docStatus (db : Db) (cmrId : String) : Option CmrStatus :=
  (db.documents.find? (fun d => d.id = cmrId)).map (fun d => d.status)

/-- Result of a lifecycle action: success or thrown error message, the
database afterwards, and the trace of store operations performed. -/
structure ActionResult where
  outcome : Except String Unit
  db : Db
  trace : List StoreOp
  deriving Repr

/-- `startLoading`: insert Event(loading_start), then set status=loading. -/
def startLoading (cmrId userId : String) (db : Db) : ActionResult :=
  let e : EventRow := ⟨cmrId, userId, "loading_start", .empty⟩
  let db1 := insertEvent e db
  let db2 := updateStatus cmrId .loading db1
  ⟨.ok (), db2, [.insertEvent e, .updateStatus cmrId .loading]⟩

/-- `endLoading`: query shipper signatures (`.eq('cmr_id').eq('party_type',
'shipper').limit(1)`); throw if none; else insert Event(loading_end), then
set status=in_transit. -/
def endLoading (cmrId userId : String) (db : Db) : ActionResult :=
  let sigs := (db.signatures.filter
    (fun s => s.cmr_id = cmrId ∧ s.party_type = .shipper)).take 1
  if sigs.isEmpty then
    ⟨.error "Cannot end loading without shipper signature", db,
      [.readSignatures cmrId .shipper]⟩
  else
    let e : EventRow := ⟨cmrId, userId, "loading_end", .empty⟩
    let db1 := insertEvent e db
    let db2 := updateStatus cmrId .in_transit db1
    ⟨.ok (), db2,
      [.readSignatures cmrId .shipper, .insertEvent e,
       .updateStatus cmrId .in_transit]⟩

/-- `startDelivery`: insert Event(delivery_start), then set
status=ready_to_deliver. -/
def startDelivery (cmrId userId : String) (db : Db) : ActionResult :=
  let e : EventRow := ⟨cmrId, userId, "delivery_start", .empty⟩
  let db1 := insertEvent e db
  let db2 := updateStatus cmrId .ready_to_deliver db1
  ⟨.ok (), db2, [.insertEvent e, .updateStatus cmrId .ready_to_deliver]⟩

/-- `completeDelivery`: 1) query reserves (`.eq('cmr_id').limit(1)`);
2) set status to `completed_with_reserves` or `completed`;
3) insert Event(delivery_end, metadata={status, has_reserves}).
Note the source performs the status update BEFORE the event insert. -/
def completeDelivery (cmrId userId : String) (db : Db) : ActionResult :=
  let reserves := (db.reserves.filter (fun r => r.cmr_id = cmrId)).take 1
  let hasReserves := !reserves.isEmpty
  let finalStatus : CmrStatus :=
    if hasReserves then .completed_with_reserves else .completed
  let db1 := updateStatus cmrId finalStatus db
  let e : EventRow :=
    ⟨cmrId, userId, "delivery_end", .deliveryEnd finalStatus hasReserves⟩
  let db2 := insertEvent e db1
  ⟨.ok (), db2,
    [.readReserves cmrId, .updateStatus cmrId finalStatus, .insertEvent e]⟩

/-- `performCmrAction`: dispatch on the action tag. The TypeScript switch
operates on a runtime string (the `CmrActionType` union is erased), so the
embedding takes the tag as a string; the `default` branch throws without
touching the store. -/
def performCmrAction (cmrId userId : String) (type : String) (db : Db) :
    ActionResult :=
  if type = "loading_start" then startLoading cmrId userId db
  else if type = "loading_end" then endLoading cmrId userId db
  else if type = "delivery_start" then startDelivery cmrId userId db
  else if type = "delivery_end" then completeDelivery cmrId userId db
  else ⟨.error ("Unknown CMR action type: " ++ type), db, []⟩

/-- The rank of the status an action drives the document towards
(`delivery_end`'s two possible targets share rank 5). -/
def actionTargetRank : String → Nat
  | "loading_start" => 2
  | "loading_end" => 3
  | "delivery_start" => 4
  | "delivery_end" => 5
  | _ => 0

/-- Does the trace perform exactly two writes, the event insert first
and the status update second? -/
def eventInsertThenStatus (tr : List StoreOp) : Bool :=
  match writesOf tr with
  | [.insertEvent _, .updateStatus _ _] => true
  | _ => false

/-- Does the trace perform exactly two writes, the status update first
and the event insert second? -/
def statusThenEventInsert (tr : List StoreOp) : Bool :=
  match writesOf tr with
  | [.updateStatus _ _, .insertEvent _] => true
  | _ => false

end Lifecycle

/-! ## Status helpers (`status-helpers.ts`) -/

namespace StatusHelpers

/-- The seven status strings of the `CmrStatus` union type. -/
def ALL_STATUSES : List String :=
  ["draft", "ready_to_load", "loading", "in_transit", "ready_to_deliver",
   "completed", "completed_with_reserves"]

def IN_PROGRESS_STATUSES : List String :=
  ["draft", "ready_to_load", "loading", "in_transit", "ready_to_deliver"]

def COMPLETED_STATUSES : List String :=
  ["completed", "completed_with_reserves"]

/-- `isCompleted(status)`: membership in `COMPLETED_STATUSES`. -/
def isCompleted (status : String) : Bool :=
  COMPLETED_STATUSES.contains status

/-- `isInProgress(status)`: membership in `IN_PROGRESS_STATUSES`. -/
def isInProgress (status : String) : Bool :=
  IN_PROGRESS_STATUSES.contains status

end StatusHelpers

/-! ## Photo upload (`status-helpers.ts` source slice, `uploadCmrPhoto`) -/

namespace PhotoUpload

/-- A row of the `cmr_photos` table. -/
structure PhotoRow where
  id : String
  cmr_id : String
  user_id : String
  storage_path : String
  deriving DecidableEq, Repr

/-- The two stores `uploadCmrPhoto` touches: the `cmr-photos` storage
bucket (a set of paths) and the `cmr_photos` table. -/
structure UploadState where
  storage : List String
  photos : List PhotoRow
  deriving DecidableEq, Repr

/-- External outcomes of the two fallible calls, plus the ambient
nondeterminism (`Date.now()`, `Math.random()`) and the public-URL
resolver of the storage client. -/
structure UploadEnv where
  uploadOutcome : Except String Unit
  insertOutcome : Except String String
  timestamp : String
  randomString : String
  getPublicUrl : String → String

/-- The uploaded file: only its name is read (for the extension). -/
structure FileInfo where
  name : String

/-- `file.name.split('.').pop()`. -/
def fileExtOf (file : FileInfo) : String :=
  String.mk ((JsStr.splitOnDot file.name.data).getLastD [])

/-- The generated storage path
`${userId}/${cmrId}/${timestamp}_${randomString}.${fileExt}`. -/
def fileNameOf (env : UploadEnv) (file : FileInfo) (cmrId userId : String) :
    String :=
  userId ++ "/" ++ cmrId ++ "/" ++ env.timestamp ++ "_" ++ env.randomString
    ++ "." ++ fileExtOf file

/-- The record returned on success: the inserted row spread together with
the public URL. -/
structure PhotoRecordWithUrl where
  record : PhotoRow
  url : String
  deriving DecidableEq, Repr

/-- `uploadCmrPhoto(file, cmrId, userId)`:
1. upload the binary to storage (`upsert: false`, so an existing path is
   an upload error); on failure throw, nothing stored;
2. resolve the public URL;
3. insert the `cmr_photos` row; on failure remove the just-uploaded
   binary from storage, then throw;
4. on success return the inserted record extended with the URL. -/
def uploadCmrPhoto (env : UploadEnv) (file : FileInfo)
    (cmrId userId : String) (st : UploadState) :
    Except String PhotoRecordWithUrl × UploadState :=
  let fileName := fileNameOf env file cmrId userId
  let uploadResult : Except String Unit :=
    if fileName ∈ st.storage then .error "The resource already exists"
    else env.uploadOutcome
  match uploadResult with
  | .error e => (.error ("Failed to upload photo: " ++ e), st)
  | .ok _ =>
    let st1 : UploadState := { st with storage := st.storage ++ [fileName] }
    let url := env.getPublicUrl fileName
    match env.insertOutcome with
    | .error e =>
      let st2 : UploadState :=
        { st1 with storage := st1.storage.filter (fun p => p ≠ fileName) }
      (.error ("Failed to save photo record: " ++ e), st2)
    | .ok newId =>
      let row : PhotoRow := ⟨newId, cmrId, userId, fileName⟩
      let st2 : UploadState := { st1 with photos := st1.photos ++ [row] }
      (.ok ⟨row, url⟩, st2)

end PhotoUpload

/-! ## Export pipeline (`pdf-generator.ts`)

The generator is embedded as an explicit state-passing layout program.
A page is a list of drawing primitives; the jsPDF handle together with
the `yPos` cursor and the current font/color settings form the state.
External collaborators — jsPDF's `splitTextToSize`, the locale date
formatters, and the network fetch of image URLs — are parameters of the
embedding (`PdfEnv`); `new Date()` in the footer is the `now` argument
of `generateCmrPdf`. All coordinates in the source are integral
millimetres (A4, 210 by 297), so the cursor arithmetic is over `Int`. -/

namespace Pdf

inductive FontStyle
  | normal
  | bold
  | italic
  deriving DecidableEq, Repr

inductive Align
  | left
  | center
  | right
  deriving DecidableEq, Repr

structure Rgb where
  r : Int
  g : Int
  b : Int
  deriving DecidableEq, Repr

/-- One drawing primitive on a page. A `text` records the string, its
anchor, and the font size/style, text color and alignment in effect. -/
inductive Prim
  | text (s : String) (x y : Int) (size : Int) (style : FontStyle)
      (color : Rgb) (align : Align)
  | rect (x y w h : Int) (mode : String) (fill : Rgb) (draw : Rgb)
  | line (x1 y1 x2 y2 : Int)
  | image (src : String) (fmt : String) (x y w h : Int)
  deriving DecidableEq, Repr

/-- jsPDF handle plus the generator's local `yPos` cursor. `pages` are
the completed pages; `cur` is the page currently being written. -/
structure GenState where
  pages : List (List Prim)
  cur : List Prim
  yPos : Int
  fontSize : Int
  fontStyle : FontStyle
  textColor : Rgb
  fillColor : Rgb
  drawColor : Rgb
  deriving DecidableEq, Repr

def pageWidth : Int := 210
def pageHeight : Int := 297
def leftMargin : Int := 15
def rightMargin : Int := 15
def lineHeight : Int := 6
def contentWidth : Int := pageWidth - leftMargin - rightMargin

/-- Everything the generator consumes from the outside world:
`splitTextToSize`, the three fr-FR date formats used, and the
fetch-and-decode of an image URL (`Except` models a failed fetch). -/
structure PdfEnv where
  split : String → Int → List String
  fmtDateLongFr : String → String
  fmtDateTimeFr : String → String
  fmtDateTimeLongFr : String → String
  fetchImage : String → Except String String

/-- JS truthiness of an optional string (`undefined`, `null` and `""`
are falsy). -/
def truthyS : Option String → Bool
  | none => false
  | some s => !s.isEmpty

/-- JS truthiness of an optional number (`undefined`, `null` and `0`
are falsy). -/
def truthyI : Option Int → Bool
  | none => false
  | some n => n != 0

/-- `${x || 'N/A'}` for an optional string. -/
def strOrNA (o : Option String) : String :=
  if truthyS o then o.getD "" else "N/A"

/-- `${x || 'N/A'}` for an optional number. -/
def intOrNA (o : Option Int) : String :=
  if truthyI o then toString (o.getD 0) else "N/A"

/-- A pallet-count entry: kept when `x && x > 0`. -/
def palletEntry (label : String) (v : Option Int) : List String :=
  match v with
  | some n => if n > 0 then [label ++ toString n] else []
  | none => []

/-! ### The `cmr_documents` row and related rows, as read by the
generator -/

structure CmrDoc where
  id : String
  cmr_number : Option String
  is_international : Bool
  status : CmrStatus
  shipper_name : String
  shipper_address : Option String
  consignee_name : String
  consignee_address : Option String
  principal_name : Option String
  principal_address : Option String
  delivery_carrier_name : Option String
  delivery_carrier_address : Option String
  loading_place : String
  loading_date : String
  loading_arrival_at : Option String
  loading_departure_at : Option String
  loading_extra_services : Option String
  delivery_place : String
  requested_delivery_at : Option String
  delivery_arrival_at : Option String
  delivery_departure_at : Option String
  delivery_extra_services : Option String
  goods_description : Option String
  packages_count : Option Int
  packaging_type : Option String
  weight_kg : Option Int
  declared_value : Option Int
  declared_value_currency : Option String
  goods_marks_numbers : Option String
  is_dangerous_goods : Bool
  dangerous_goods_class : Option String
  dangerous_goods_un_number : Option String
  dangerous_goods_adr_letter : Option String
  is_controlled_temperature : Bool
  temperature_min : Option Int
  temperature_max : Option Int
  pallets_80_120 : Option Int
  pallets_100_120 : Option Int
  pallets_europe : Option Int
  pallets_others : Option Int
  pallets_bacs : Option Int
  pallets_rolls : Option Int
  pallets_origin : Option String
  pallets_loaded_at_shipper : Option Int
  pallets_returned_to_shipper : Option Int
  pallets_delivered_to_consignee : Option Int
  pallets_returned_by_consignee : Option Int
  pallets_deposited_at : Option String
  pallets_final_balance : Option String
  attached_documents : Option String
  instructions : Option String
  customs_instructions : Option String
  cash_on_delivery_amount : Option Int
  cash_on_delivery_currency : Option String
  freight_total_amount : Option Int
  freight_currency : Option String
  freight_terms : Option String
  deriving Repr

structure Profile where
  company_name : Option String
  company_address : Option String
  company_siren : Option String
  company_siret : Option String
  company_naf : Option String
  phone : Option String
  billing_email : Option String
  deriving Repr

structure PdfSignature where
  signer_name : Option String
  signer_role : Option String
  signer_email : Option String
  created_at : String
  signatureUrl : Option String
  deriving Repr

structure PdfReserve where
  side : Lifecycle.ReserveSide
  reserve_type : String
  comment : Option String
  photoUrl : Option String
  deriving Repr

structure PdfPhoto where
  photoUrl : Option String
  deriving Repr

structure GeneratePdfOptions where
  cmr : CmrDoc
  profile : Option Profile
  shipperSignature : Option PdfSignature
  consigneeSignature : Option PdfSignature
  reserves : List PdfReserve
  photos : List PdfPhoto
  deriving Repr

/-! ### jsPDF operations -/

def emit (p : Prim) (st : GenState) : GenState :=
  { st with cur := st.cur ++ [p] }

def addPage (st : GenState) : GenState :=
  { st with pages := st.pages ++ [st.cur], cur := [] }

def setFontSize (n : Int) (st : GenState) : GenState :=
  { st with fontSize := n }

def setFontStyle (f : FontStyle) (st : GenState) : GenState :=
  { st with fontStyle := f }

def setTextColor (r g b : Int) (st : GenState) : GenState :=
  { st with textColor := ⟨r, g, b⟩ }

def setFillColor (r g b : Int) (st : GenState) : GenState :=
  { st with fillColor := ⟨r, g, b⟩ }

def setDrawColor (r g b : Int) (st : GenState) : GenState :=
  { st with drawColor := ⟨r, g, b⟩ }

def moveY (d : Int) (st : GenState) : GenState :=
  { st with yPos := st.yPos + d }

def setY (y : Int) (st : GenState) : GenState :=
  { st with yPos := y }

/-- `pdf.text(s, x, y, {align})` with the current font and color. -/
def textAt (s : String) (x y : Int) (align : Align) (st : GenState) :
    GenState :=
  emit (.text s x y st.fontSize st.fontStyle st.textColor align) st

def rectAt (x y w h : Int) (mode : String) (st : GenState) : GenState :=
  emit (.rect x y w h mode st.fillColor st.drawColor) st

def lineAt (x1 y1 x2 y2 : Int) (st : GenState) : GenState :=
  emit (.line x1 y1 x2 y2) st

def imageAt (src fmt : String) (x y w h : Int) (st : GenState) : GenState :=
  emit (.image src fmt x y w h) st

/-! ### The generator's helper closures -/

/-- `checkPageBreak(requiredSpace)`: if the required space does not fit
between the cursor and the bottom margin (20mm), start a new page and
reset the cursor to 20mm; otherwise leave the state unchanged. -/
def checkPageBreak (requiredSpace : Int) (st : GenState) :
    Bool × GenState :=
  if st.yPos + requiredSpace > pageHeight - 20 then
    (true, setY 20 (addPage st))
  else
    (false, st)

/-- `addText(text, fontSize = 9, isBold = false, xOffset = 0)`. -/
def addText (text : String) (fontSize : Int) (isBold : Bool)
    (xOffset : Int) (st : GenState) : GenState :=
  let st := (checkPageBreak lineHeight st).2
  let st := setFontSize fontSize st
  let st := setFontStyle (if isBold then .bold else .normal) st
  let st := textAt text (leftMargin + xOffset) st.yPos .left st
  moveY lineHeight st

/-- A `for (const line of pdf.splitTextToSize(...))` loop of `addText`
calls. -/
def addTextLines (lines : List String) (fontSize : Int) (st : GenState) :
    GenState :=
  lines.foldl (fun s line => addText line fontSize false 0 s) st

/-- `addSection(title, boxNumber)`; an empty `boxNumber` is falsy. -/
def addSection (title boxNumber : String) (st : GenState) : GenState :=
  let st := (checkPageBreak (lineHeight + 4) st).2
  let st := moveY 2 st
  let st := setFontSize 11 st
  let st := setFontStyle .bold st
  let displayTitle :=
    if !boxNumber.isEmpty then boxNumber ++ ". " ++ title else title
  let st := textAt displayTitle leftMargin st.yPos .left st
  let st := moveY lineHeight st
  let st := lineAt leftMargin (st.yPos - 1) (pageWidth - rightMargin)
    (st.yPos - 1) st
  moveY 2 st

/-- `addSubSection(title, fontSize = 10)`. -/
def addSubSection (title : String) (fontSize : Int) (st : GenState) :
    GenState :=
  let st := (checkPageBreak lineHeight st).2
  let st := setFontSize fontSize st
  let st := setFontStyle .bold st
  let st := textAt title leftMargin st.yPos .left st
  moveY lineHeight st

/-- `addTwoColumns(left, right, fontSize = 9)`. -/
def addTwoColumns (left right : String) (fontSize : Int) (st : GenState) :
    GenState :=
  let st := (checkPageBreak lineHeight st).2
  let st := setFontSize fontSize st
  let st := setFontStyle .normal st
  let st := textAt left leftMargin st.yPos .left st
  let st := textAt right (pageWidth / 2) st.yPos .left st
  moveY lineHeight st

/-! ### Sections of the generator body, in source order -/

/-- `status.toUpperCase().replace(/_/g, ' ')`. -/
def statusUpper : CmrStatus → String
  | .draft => "DRAFT"
  | .ready_to_load => "READY TO LOAD"
  | .loading => "LOADING"
  | .in_transit => "IN TRANSIT"
  | .ready_to_deliver => "READY TO DELIVER"
  | .completed => "COMPLETED"
  | .completed_with_reserves => "COMPLETED WITH RESERVES"

/-- Header block: CMR banner, number, transport type, status badge. -/
def renderHeader (cmr : CmrDoc) (st : GenState) : GenState :=
  let st := setFillColor 230 230 250 st
  let st := rectAt leftMargin st.yPos contentWidth 15 "F" st
  let st := setFontSize 20 st
  let st := setFontStyle .bold st
  let st := textAt "CMR" (pageWidth / 2) (st.yPos + 6) .center st
  let st := setFontSize 9 st
  let st := setFontStyle .normal st
  let st := textAt "Convention relative au contrat de transport"
    (pageWidth / 2) (st.yPos + 11) .center st
  let st := textAt "international de marchandises par route"
    (pageWidth / 2) (st.yPos + 14) .center st
  let st := moveY 17 st
  let st := setFontSize 10 st
  let st := setFontStyle .bold st
  let cmrNumberText :=
    if truthyS cmr.cmr_number then "CMR N°: " ++ cmr.cmr_number.getD ""
    else "CMR ID: " ++ JsStr.substringPrefix 8 cmr.id
  let st := textAt cmrNumberText leftMargin st.yPos .left st
  let transportType :=
    if cmr.is_international then "INTERNATIONAL" else "NATIONAL"
  let st :=
    if cmr.is_international then setTextColor 200 0 0 st
    else setTextColor 0 100 0 st
  let st := textAt transportType (pageWidth - rightMargin) st.yPos .right st
  let st := setTextColor 0 0 0 st
  let st := moveY (lineHeight + 3) st
  let st :=
    if cmr.status = .completed ∨ cmr.status = .completed_with_reserves then
      setFontSize 9 (setTextColor 34 197 94 st)
    else
      setFontSize 9 (setTextColor 156 163 175 st)
  let st := textAt ("Status: " ++ statusUpper cmr.status)
    (pageWidth - rightMargin) st.yPos .right st
  let st := setTextColor 0 0 0 st
  moveY (lineHeight + 5) st

/-- Boxes 1-3 plus the optional additional parties. -/
def renderParties (env : PdfEnv) (cmr : CmrDoc) (profile : Option Profile)
    (st : GenState) : GenState :=
  let st := addSection "PARTIES" "1-3" st
  let st := addSubSection "1. Sender / Shipper (Expéditeur)" 10 st
  let st := addText ("Name: " ++ cmr.shipper_name) 9 true 0 st
  let st :=
    if truthyS cmr.shipper_address then
      addTextLines
        (env.split ("Address: " ++ cmr.shipper_address.getD "") contentWidth)
        9 st
    else st
  let st := moveY 2 st
  let st := addSubSection "2. Carrier / Transporter (Transporteur)" 10 st
  let st :=
    match profile with
    | some p =>
      let st :=
        if truthyS p.company_name then
          addText ("Company: " ++ p.company_name.getD "") 9 true 0 st
        else st
      let st :=
        if truthyS p.company_address then
          addTextLines
            (env.split ("Address: " ++ p.company_address.getD "")
              contentWidth) 9 st
        else st
      let regNumbers :=
        (if truthyS p.company_siren then
          ["SIREN: " ++ p.company_siren.getD ""] else []) ++
        (if truthyS p.company_siret then
          ["SIRET: " ++ p.company_siret.getD ""] else []) ++
        (if truthyS p.company_naf then
          ["NAF: " ++ p.company_naf.getD ""] else [])
      let st :=
        if regNumbers.length > 0 then
          addText (String.intercalate " | " regNumbers) 8 false 0 st
        else st
      let st :=
        if truthyS p.phone then
          addText ("Phone: " ++ p.phone.getD "") 9 false 0 st
        else st
      if truthyS p.billing_email then
        addText ("Email: " ++ p.billing_email.getD "") 9 false 0 st
      else st
    | none =>
      let st := setFontStyle .italic st
      addText "Transporter information not available" 9 false 0 st
  let st := moveY 2 st
  let st := addSubSection "3. Consignee (Destinataire)" 10 st
  let st := addText ("Name: " ++ cmr.consignee_name) 9 true 0 st
  let st :=
    if truthyS cmr.consignee_address then
      addTextLines
        (env.split ("Address: " ++ cmr.consignee_address.getD "")
          contentWidth) 9 st
    else st
  let st := moveY 2 st
  let st :=
    if truthyS cmr.principal_name || truthyS cmr.delivery_carrier_name then
      let st := addSubSection "Additional Parties" 10 st
      let st :=
        if truthyS cmr.principal_name then
          let st := addText "Principal / Ordering Party (Donneur d\x27ordres):"
            9 true 0 st
          let st := addText ("  " ++ cmr.principal_name.getD "") 9 false 0 st
          let st :=
            if truthyS cmr.principal_address then
              addTextLines
                (env.split ("  " ++ cmr.principal_address.getD "")
                  (contentWidth - 5)) 9 st
            else st
          moveY 1 st
        else st
      let st :=
        if truthyS cmr.delivery_carrier_name then
          let st := addText "Successive Carrier (Transporteur successif):"
            9 true 0 st
          let st := addText ("  " ++ cmr.delivery_carrier_name.getD "")
            9 false 0 st
          if truthyS cmr.delivery_carrier_address then
            addTextLines
              (env.split ("  " ++ cmr.delivery_carrier_address.getD "")
                (contentWidth - 5)) 9 st
          else st
        else st
      moveY 2 st
    else st
  moveY 3 st

/-- Boxes 4, 6-7: loading and delivery places, dates and timestamps. -/
def renderLoadingDelivery (env : PdfEnv) (cmr : CmrDoc) (st : GenState) :
    GenState :=
  let st := addSection "LOADING & DELIVERY" "4, 6-7" st
  let st := addSubSection
    "4. Loading Place and Date (Lieu et date de la prise en charge)" 10 st
  let st := addText ("Place: " ++ cmr.loading_place) 9 true 0 st
  let st := addText ("Planned Date: " ++ env.fmtDateLongFr cmr.loading_date)
    9 false 0 st
  let st :=
    if truthyS cmr.loading_arrival_at || truthyS cmr.loading_departure_at then
      let st := addText "Actual Timestamps:" 9 true 0 st
      let st :=
        if truthyS cmr.loading_arrival_at then
          addText ("  Arrived: " ++
            env.fmtDateTimeFr (cmr.loading_arrival_at.getD "")) 8 false 0 st
        else st
      if truthyS cmr.loading_departure_at then
        addText ("  Departed: " ++
          env.fmtDateTimeFr (cmr.loading_departure_at.getD "")) 8 false 0 st
      else st
    else st
  let st :=
    if truthyS cmr.loading_extra_services then
      addText ("Extra Services: " ++ cmr.loading_extra_services.getD "")
        9 false 0 st
    else st
  let st := moveY 2 st
  let st := addSubSection "6. Delivery Place (Lieu de livraison)" 10 st
  let st := addText ("Place: " ++ cmr.delivery_place) 9 true 0 st
  let st :=
    if truthyS cmr.requested_delivery_at then
      addText ("Requested Delivery: " ++
        env.fmtDateTimeFr (cmr.requested_delivery_at.getD "")) 9 false 0 st
    else st
  let st :=
    if truthyS cmr.delivery_arrival_at || truthyS cmr.delivery_departure_at
    then
      let st := addText "Actual Timestamps:" 9 true 0 st
      let st :=
        if truthyS cmr.delivery_arrival_at then
          addText ("  Arrived: " ++
            env.fmtDateTimeFr (cmr.delivery_arrival_at.getD "")) 8 false 0 st
        else st
      if truthyS cmr.delivery_departure_at then
        addText ("  Departed: " ++
          env.fmtDateTimeFr (cmr.delivery_departure_at.getD "")) 8 false 0 st
      else st
    else st
  let st :=
    if truthyS cmr.delivery_extra_services then
      addText ("Extra Services: " ++ cmr.delivery_extra_services.getD "")
        9 false 0 st
    else st
  moveY 3 st

/-- Boxes 8-14: goods description, package details, marks. -/
def renderGoods (env : PdfEnv) (cmr : CmrDoc) (st : GenState) : GenState :=
  let st := addSection "GOODS INFORMATION" "8-14" st
  let st := addSubSection
    "11. Description / Nature of Goods (Nature de la marchandise)" 10 st
  let st :=
    if truthyS cmr.goods_description then
      addTextLines (env.split (cmr.goods_description.getD "") contentWidth)
        9 st
    else
      addText "N/A" 9 false 0 st
  let st := moveY 2 st
  let st := addSubSection "Package Details" 10 st
  let st := addTwoColumns
    ("9. Packages: " ++ intOrNA cmr.packages_count)
    ("10. Packaging: " ++ strOrNA cmr.packaging_type) 9 st
  let st := addTwoColumns
    ("13. Gross Weight: " ++
      (if truthyI cmr.weight_kg then toString (cmr.weight_kg.getD 0) ++ " kg"
       else "N/A"))
    ("14. Volume: " ++
      (if truthyI cmr.declared_value then
        toString (cmr.declared_value.getD 0) ++ " " ++
          (if truthyS cmr.declared_value_currency then
            cmr.declared_value_currency.getD "" else "EUR")
       else "N/A")) 9 st
  let st := moveY 1 st
  let st :=
    if truthyS cmr.goods_marks_numbers then
      let st := addText
        ("8. Marks & Numbers: " ++ cmr.goods_marks_numbers.getD "")
        9 false 0 st
      moveY 1 st
    else st
  moveY 2 st

/-- Conditional dangerous-goods (ADR) warning box. -/
def renderDangerousGoods (cmr : CmrDoc) (st : GenState) : GenState :=
  if cmr.is_dangerous_goods then
    let st := (checkPageBreak 25 st).2
    let st := setFillColor 255 237 213 st
    let st := setDrawColor 255 140 0 st
    let st := rectAt leftMargin st.yPos contentWidth 20 "FD" st
    let st := moveY 4 st
    let st := addSubSection "⚠ DANGEROUS GOODS (ADR) - Matières Dangereuses"
      10 st
    let st := moveY (-1) st
    let st :=
      if truthyS cmr.dangerous_goods_class then
        addText ("  Class: " ++ cmr.dangerous_goods_class.getD "") 9 false 0 st
      else st
    let st :=
      if truthyS cmr.dangerous_goods_un_number then
        addText ("  UN Number: " ++ cmr.dangerous_goods_un_number.getD "")
          9 false 0 st
      else st
    let st :=
      if truthyS cmr.dangerous_goods_adr_letter then
        addText ("  ADR Letter: " ++ cmr.dangerous_goods_adr_letter.getD "")
          9 false 0 st
      else st
    moveY 3 st
  else st

/-- Conditional temperature-control info box (note the strict `!== null`
checks: a 0° bound is printed). -/
def renderTemperature (cmr : CmrDoc) (st : GenState) : GenState :=
  if cmr.is_controlled_temperature then
    let st := (checkPageBreak 15 st).2
    let st := setFillColor 219 234 254 st
    let st := setDrawColor 59 130 246 st
    let st := rectAt leftMargin st.yPos contentWidth 12 "FD" st
    let st := moveY 4 st
    let st := addSubSection
      "❄ TEMPERATURE CONTROLLED - Transport Frigorifique" 10 st
    let st := moveY (-1) st
    let tempInfo :=
      (match cmr.temperature_min with
       | some t => ["Min: " ++ toString t ++ "°C"]
       | none => []) ++
      (match cmr.temperature_max with
       | some t => ["Max: " ++ toString t ++ "°C"]
       | none => [])
    let st :=
      if tempInfo.length > 0 then
        addText ("  " ++ String.intercalate " | " tempInfo) 9 false 0 st
      else st
    moveY 3 st
  else st

/-- Box 15: pallets and supports, rendered only when some count is
truthy. -/
def renderPallets (env : PdfEnv) (cmr : CmrDoc) (st : GenState) : GenState :=
  let hasPallets := truthyI cmr.pallets_80_120 || truthyI cmr.pallets_100_120
    || truthyI cmr.pallets_europe || truthyI cmr.pallets_others
    || truthyI cmr.pallets_bacs || truthyI cmr.pallets_rolls
  if hasPallets then
    let st := addSection "PALLETS & SUPPORTS" "15" st
    let palletLines :=
      palletEntry "80x120: " cmr.pallets_80_120 ++
      palletEntry "100x120: " cmr.pallets_100_120 ++
      palletEntry "Euro: " cmr.pallets_europe ++
      palletEntry "Others: " cmr.pallets_others ++
      palletEntry "Bacs: " cmr.pallets_bacs ++
      palletEntry "Rolls: " cmr.pallets_rolls
    let st :=
      if palletLines.length > 0 then
        addText (String.intercalate " | " palletLines) 9 false 0 st
      else st
    let st :=
      if truthyS cmr.pallets_origin then
        addText ("Origin: " ++ cmr.pallets_origin.getD "") 9 false 0 st
      else st
    let st :=
      if truthyI cmr.pallets_loaded_at_shipper
        || truthyI cmr.pallets_returned_to_shipper
        || truthyI cmr.pallets_delivered_to_consignee
        || truthyI cmr.pallets_returned_by_consignee then
        let st := moveY 1 st
        let st := addText "Pallet Exchange:" 9 true 0 st
        let st :=
          if truthyI cmr.pallets_loaded_at_shipper then
            addText ("  Loaded at shipper: " ++
              toString (cmr.pallets_loaded_at_shipper.getD 0)) 8 false 0 st
          else st
        let st :=
          if truthyI cmr.pallets_returned_to_shipper then
            addText ("  Returned to shipper: " ++
              toString (cmr.pallets_returned_to_shipper.getD 0)) 8 false 0 st
          else st
        let st :=
          if truthyI cmr.pallets_delivered_to_consignee then
            addText ("  Delivered to consignee: " ++
              toString (cmr.pallets_delivered_to_consignee.getD 0))
              8 false 0 st
          else st
        if truthyI cmr.pallets_returned_by_consignee then
          addText ("  Returned by consignee: " ++
            toString (cmr.pallets_returned_by_consignee.getD 0)) 8 false 0 st
        else st
      else st
    let st :=
      if truthyS cmr.pallets_deposited_at then
        addText ("Deposited at: " ++ cmr.pallets_deposited_at.getD "")
          9 false 0 st
      else st
    let st :=
      if truthyS cmr.pallets_final_balance then
        addTextLines
          (env.split ("Final Balance: " ++ cmr.pallets_final_balance.getD "")
            contentWidth) 9 st
      else st
    moveY 3 st
  else st

/-- Box 5: attached documents. -/
def renderAttachedDocs (env : PdfEnv) (cmr : CmrDoc) (st : GenState) :
    GenState :=
  if truthyS cmr.attached_documents then
    let st := addSection "ATTACHED DOCUMENTS" "5" st
    let st := addTextLines
      (env.split (cmr.attached_documents.getD "") contentWidth) 9 st
    moveY 3 st
  else st

/-- Boxes 16-17: sender and customs instructions. -/
def renderInstructions (env : PdfEnv) (cmr : CmrDoc) (st : GenState) :
    GenState :=
  if truthyS cmr.instructions || truthyS cmr.customs_instructions then
    let st := addSection "INSTRUCTIONS" "16-17" st
    let st :=
      if truthyS cmr.instructions then
        let st := addSubSection
          "16. Sender\x27s Instructions (Instructions de l\x27expéditeur)" 10 st
        let st := addTextLines
          (env.split (cmr.instructions.getD "") contentWidth) 9 st
        moveY 2 st
      else st
    let st :=
      if truthyS cmr.customs_instructions then
        let st := addSubSection
          "17. Customs Instructions (Instructions douanières)" 10 st
        let st := addTextLines
          (env.split (cmr.customs_instructions.getD "") contentWidth) 9 st
        moveY 2 st
      else st
    moveY 1 st
  else st

/-- Boxes 20-21: cash on delivery and freight charges. -/
def renderFinancial (cmr : CmrDoc) (st : GenState) : GenState :=
  let hasFinancial := truthyI cmr.cash_on_delivery_amount
    || truthyI cmr.freight_total_amount || truthyS cmr.freight_terms
  if hasFinancial then
    let st := addSection "FINANCIAL INFORMATION" "20-21" st
    let codPositive : Bool :=
      match cmr.cash_on_delivery_amount with
      | some n => decide (n > 0)
      | none => false
    let st :=
      if codPositive then
        let st := (checkPageBreak 12 st).2
        let st := setFillColor 254 249 195 st
        let st := setDrawColor 250 204 21 st
        let st := rectAt leftMargin st.yPos contentWidth 10 "FD" st
        let st := moveY 4 st
        let st := addSubSection "20. Cash on Delivery (Contre-Remboursement)"
          10 st
        let st := moveY (-1) st
        let st := addText ("  Amount: " ++
          toString (cmr.cash_on_delivery_amount.getD 0) ++ " " ++
          (if truthyS cmr.cash_on_delivery_currency then
            cmr.cash_on_delivery_currency.getD "" else "EUR")) 10 true 0 st
        moveY 4 st
      else st
    let st :=
      if truthyI cmr.freight_total_amount || truthyS cmr.freight_terms then
        let st := addSubSection "21. Freight Charges (Port et frais)" 10 st
        let st :=
          if truthyI cmr.freight_total_amount then
            addText ("Amount: " ++ toString (cmr.freight_total_amount.getD 0)
              ++ " " ++
              (if truthyS cmr.freight_currency then
                cmr.freight_currency.getD "" else "EUR")) 9 false 0 st
          else st
        let st :=
          if truthyS cmr.freight_terms then
            addText ("Terms: " ++ cmr.freight_terms.getD "") 9 false 0 st
          else st
        moveY 2 st
      else st
    moveY 1 st
  else st

/-- Body of the photos loop: fetch-and-embed one general photo; on a
failed fetch, fall to the catch branch which writes the
`[Photo not available]` placeholder and advances one line. -/
def renderPhotoItem (env : PdfEnv) (photo : PdfPhoto) (st : GenState) :
    GenState :=
  if truthyS photo.photoUrl then
    let st := (checkPageBreak 70 st).2
    match env.fetchImage (photo.photoUrl.getD "") with
    | .ok base64 =>
      let st := imageAt base64 "JPEG" leftMargin st.yPos 90 65 st
      moveY (65 + 5) st
    | .error _ =>
      let st := setFontStyle .italic st
      let st := setFontSize 8 st
      let st := textAt "[Photo not available]" leftMargin st.yPos .left st
      moveY lineHeight st
  else st

/-- The PHOTOS section. -/
def renderPhotos (env : PdfEnv) (photos : List PdfPhoto) (st : GenState) :
    GenState :=
  if photos.length > 0 then
    let st := addSection "PHOTOS" "" st
    let st := addText (toString photos.length ++ " photo(s) attached")
      9 false 0 st
    let st := moveY 2 st
    let st := photos.foldl (fun s p => renderPhotoItem env p s) st
    moveY 3 st
  else st

/-- Body of a reserves loop: bold type label, wrapped comment, then the
optional photo. A failed reserve-photo fetch is only logged
(`console.error`): no placeholder is written and the cursor does not
move. -/
def renderReserveItem (env : PdfEnv) (reserve : PdfReserve) (st : GenState) :
    GenState :=
  let st := (checkPageBreak 35 st).2
  let st := setFontSize 9 st
  let st := setFontStyle .bold st
  let st := textAt ("• " ++ reserve.reserve_type) (leftMargin + 3)
    st.yPos .left st
  let st := moveY lineHeight st
  let st :=
    if truthyS reserve.comment then
      let st := setFontStyle .normal st
      (env.split (reserve.comment.getD "") (contentWidth - 8)).foldl
        (fun s line =>
          let s := (checkPageBreak lineHeight s).2
          let s := textAt line (leftMargin + 6) s.yPos .left s
          moveY lineHeight s) st
    else st
  let st :=
    if truthyS reserve.photoUrl then
      let st := (checkPageBreak 50 st).2
      match env.fetchImage (reserve.photoUrl.getD "") with
      | .ok base64 =>
        let st := imageAt base64 "JPEG" (leftMargin + 6) st.yPos 60 45 st
        moveY (45 + 5) st
      | .error _ => st
    else st
  moveY 2 st

/-- Boxes 23-24: the RESERVES section, split by side. -/
def renderReserves (env : PdfEnv) (reserves : List PdfReserve)
    (st : GenState) : GenState :=
  if reserves.length > 0 then
    let st := addSection "RESERVES & OBSERVATIONS" "23-24" st
    let loadingReserves := reserves.filter
      (fun r => r.side = Lifecycle.ReserveSide.loading)
    let deliveryReserves := reserves.filter
      (fun r => r.side = Lifecycle.ReserveSide.delivery)
    let st :=
      if loadingReserves.length > 0 then
        let st := addSubSection "23. Reserves at Loading (Réserves au chargement)"
          10 st
        let st := moveY 1 st
        let st := loadingReserves.foldl (fun s r => renderReserveItem env r s)
          st
        moveY 2 st
      else st
    let st :=
      if deliveryReserves.length > 0 then
        let st := addSubSection
          "24. Reserves at Delivery (Réserves à la livraison)" 10 st
        let st := moveY 1 st
        deliveryReserves.foldl (fun s r => renderReserveItem env r s) st
      else st
    moveY 3 st
  else st

/-- Fetch-and-embed of a signature image (identical code in the shipper
and consignee blocks): on failure, the `[Signature image not available]`
placeholder. -/
def renderSignatureImage (env : PdfEnv) (url : String) (st : GenState) :
    GenState :=
  let st := (checkPageBreak 35 st).2
  match env.fetchImage url with
  | .ok base64 =>
    let st := imageAt base64 "PNG" leftMargin st.yPos 80 30 st
    moveY (30 + 5) st
  | .error _ =>
    let st := setFontStyle .italic st
    let st := setFontSize 8 st
    let st := textAt "[Signature image not available]" leftMargin
      st.yPos .left st
    moveY lineHeight st

/-- One signature block: signer metadata and the embedded image. -/
def renderSignatureBlock (env : PdfEnv) (title : String)
    (sig : PdfSignature) (st : GenState) : GenState :=
  let st := (checkPageBreak 55 st).2
  let st := addSubSection title 10 st
  let st := moveY 1 st
  let st :=
    if truthyS sig.signer_name then
      addText ("Name: " ++ sig.signer_name.getD "") 9 true 0 st
    else st
  let st :=
    if truthyS sig.signer_role then
      addText ("Role: " ++ sig.signer_role.getD "") 9 false 0 st
    else st
  let st :=
    if truthyS sig.signer_email then
      addText ("Email: " ++ sig.signer_email.getD "") 9 false 0 st
    else st
  let st := addText ("Signed: " ++ env.fmtDateTimeLongFr sig.created_at)
    9 false 0 st
  let st := moveY 2 st
  if truthyS sig.signatureUrl then
    renderSignatureImage env (sig.signatureUrl.getD "") st
  else st

/-- The SIGNATURES section: shipper block (followed by a 5mm gap), then
consignee block. -/
def renderSignatures (env : PdfEnv)
    (shipperSignature consigneeSignature : Option PdfSignature)
    (st : GenState) : GenState :=
  let st := addSection "SIGNATURES" "" st
  let st :=
    match shipperSignature with
    | some s =>
      let st := renderSignatureBlock env
        "Shipper / Sender Signature (Signature de l\x27expéditeur)" s st
      moveY 5 st
    | none => st
  match consigneeSignature with
  | some s =>
    renderSignatureBlock env
      "Consignee / Receiver Signature (Signature du destinataire)" s st
  | none => st

/-! ### Footer pass and entry points -/

/-- The fixed legal notice stamped on every page. -/
def footerLegalPrim : Prim :=
  .text "This digital CMR document is a legally valid transport contract under the CMR Convention"
    (pageWidth / 2) (pageHeight - 10 - 3) 7 .italic ⟨100, 100, 100⟩ .center

/-- `Generated on <now> - Page <i> of <total>`. -/
def genFooterText (now : String) (i total : Nat) : String :=
  "Generated on " ++ now ++ " - Page " ++ toString i ++ " of "
    ++ toString total

def genFooterPrim (now : String) (i total : Nat) : Prim :=
  .text (genFooterText now i total) (pageWidth / 2) (pageHeight - 10)
    8 .italic ⟨100, 100, 100⟩ .center

/-- The second pass over every produced page, stamping the legal notice
and the generation line. -/
def addFooters (now : String) (total : Nat) : Nat → List (List Prim) →
    List (List Prim)
  | _, [] => []
  | i, pg :: rest =>
    (pg ++ [footerLegalPrim, genFooterPrim now i total]) ::
      addFooters now total (i + 1) rest

/-- jsPDF initial state: one empty page, cursor at 15mm, default font. -/
def initState : GenState :=
  { pages := [], cur := [], yPos := 15, fontSize := 16,
    fontStyle := .normal, textColor := ⟨0, 0, 0⟩, fillColor := ⟨0, 0, 0⟩,
    drawColor := ⟨0, 0, 0⟩ }

/-- The single main pass of `generateCmrPdf`, in source section order. -/
def renderBody (env : PdfEnv) (o : GeneratePdfOptions) (st : GenState) :
    GenState :=
  let st := renderHeader o.cmr st
  let st := renderParties env o.cmr o.profile st
  let st := renderLoadingDelivery env o.cmr st
  let st := renderGoods env o.cmr st
  let st := renderDangerousGoods o.cmr st
  let st := renderTemperature o.cmr st
  let st := renderPallets env o.cmr st
  let st := renderAttachedDocs env o.cmr st
  let st := renderInstructions env o.cmr st
  let st := renderFinancial o.cmr st
  let st := renderPhotos env o.photos st
  let st := renderReserves env o.reserves st
  renderSignatures env o.shipperSignature o.consigneeSignature st

/-- The pages after the main pass (the current page included), before
footers. -/
def mainPages (env : PdfEnv) (o : GeneratePdfOptions) : List (List Prim) :=
  let st := renderBody env o initState
  st.pages ++ [st.cur]

/-- The finished paginated document. -/
structure PdfDoc where
  pages : List (List Prim)
  deriving Repr

/-- `generateCmrPdf`: main pass, then the footer pass using the page
count known only afterwards; `now` is the `new Date()` of the footer. -/
def generateCmrPdf (env : PdfEnv) (now : String) (o : GeneratePdfOptions) :
    PdfDoc :=
  let ps := mainPages env o
  ⟨addFooters now ps.length 1 ps⟩

def pageCount (d : PdfDoc) : Nat := d.pages.length

/-- All primitives of a state, in emission order (completed pages then
the current page). Every jsPDF operation only appends to this list. -/
def GenState.flatten (st : GenState) : List Prim :=
  st.pages.flatten ++ st.cur

/-- Does a text primitive contain `needle` as a substring? -/
def primHasSubstr (needle : String) : Prim → Bool
  | .text s _ _ _ _ _ _ => JsStr.strContains s needle
  | _ => false

/-- Does any text primitive of the document contain `needle`? -/
def docContainsText (d : PdfDoc) (needle : String) : Bool :=
  d.pages.flatten.any (primHasSubstr needle)

end Pdf

/-! ## Concrete fixtures used by witnesses and counterexamples -/

namespace Fixtures

open Lifecycle in
/-- One document in `loading`, no signatures. -/
def dbLoadingNoSig : Db :=
  { documents := [⟨"d1", .loading⟩], signatures := [], reserves := [],
    events := [] }

open Lifecycle in
/-- One document in `loading` with a shipper signature. -/
def dbLoadingSig : Db :=
  { documents := [⟨"d1", .loading⟩],
    signatures := [⟨"s1", "d1", .shipper⟩], reserves := [], events := [] }

open Lifecycle in
/-- One document in `ready_to_load`. -/
def dbReadyToLoad : Db :=
  { documents := [⟨"d1", .ready_to_load⟩], signatures := [], reserves := [],
    events := [] }

open Lifecycle in
/-- One document already `in_transit`. -/
def dbInTransit : Db :=
  { documents := [⟨"d1", .in_transit⟩], signatures := [], reserves := [],
    events := [] }

open Lifecycle in
/-- One document in `ready_to_deliver`, no reserves. -/
def dbRtdNoReserve : Db :=
  { documents := [⟨"d1", .ready_to_deliver⟩], signatures := [],
    reserves := [], events := [] }

open Lifecycle in
/-- One document in `ready_to_deliver` with one delivery-side reserve. -/
def dbRtdReserve : Db :=
  { documents := [⟨"d1", .ready_to_deliver⟩], signatures := [],
    reserves := [⟨"r1", "d1", .delivery⟩], events := [] }

/-- An export environment whose image fetches all fail, with trivial
text wrapping and identity date formatting. -/
def testEnvFail : Pdf.PdfEnv :=
  { split := fun s _ => [s], fmtDateLongFr := fun s => s,
    fmtDateTimeFr := fun s => s, fmtDateTimeLongFr := fun s => s,
    fetchImage := fun _ => .error "unreachable" }

/-- A minimal `cmr_documents` row: required fields only. -/
def minimalCmr : Pdf.CmrDoc :=
  { id := "abcdefgh-0000", cmr_number := none, is_international := false,
    status := .ready_to_deliver,
    shipper_name := "S", shipper_address := none,
    consignee_name := "C", consignee_address := none,
    principal_name := none, principal_address := none,
    delivery_carrier_name := none, delivery_carrier_address := none,
    loading_place := "Paris", loading_date := "2025-01-01",
    loading_arrival_at := none, loading_departure_at := none,
    loading_extra_services := none,
    delivery_place := "Lyon", requested_delivery_at := none,
    delivery_arrival_at := none, delivery_departure_at := none,
    delivery_extra_services := none,
    goods_description := none, packages_count := none,
    packaging_type := none, weight_kg := none,
    declared_value := none, declared_value_currency := none,
    goods_marks_numbers := none,
    is_dangerous_goods := false, dangerous_goods_class := none,
    dangerous_goods_un_number := none, dangerous_goods_adr_letter := none,
    is_controlled_temperature := false, temperature_min := none,
    temperature_max := none,
    pallets_80_120 := none, pallets_100_120 := none, pallets_europe := none,
    pallets_others := none, pallets_bacs := none, pallets_rolls := none,
    pallets_origin := none, pallets_loaded_at_shipper := none,
    pallets_returned_to_shipper := none,
    pallets_delivered_to_consignee := none,
    pallets_returned_by_consignee := none,
    pallets_deposited_at := none, pallets_final_balance := none,
    attached_documents := none, instructions := none,
    customs_instructions := none,
    cash_on_delivery_amount := none, cash_on_delivery_currency := none,
    freight_total_amount := none, freight_currency := none,
    freight_terms := none }

/-- An aggregate with a single reserve whose photo URL will fail to
fetch; no general photos and no signatures. -/
def optsReserveFail : Pdf.GeneratePdfOptions :=
  { cmr := minimalCmr, profile := none, shipperSignature := none,
    consigneeSignature := none,
    reserves := [{ side := .delivery, reserve_type := "Damage",
                   comment := none, photoUrl := some "https://p" }],
    photos := [] }

/-- A photo row whose URL fails to fetch. -/
def photoFail : Pdf.PdfPhoto := { photoUrl := some "https://p" }

/-- A reserve row whose photo URL fails to fetch, with no comment. -/
def reserveFail : Pdf.PdfReserve :=
  { side := .loading, reserve_type := "Damage", comment := none,
    photoUrl := some "https://p" }

/-- Upload environment whose storage upload succeeds and whose database
insert fails. -/
def upEnvInsertFail : PhotoUpload.UploadEnv :=
  { uploadOutcome := .ok (), insertOutcome := .error "constraint violated",
    timestamp := "1700000000000", randomString := "abc123",
    getPublicUrl := fun p => "https://public/cmr-photos/" ++ p }

/-- Upload environment where both calls succeed. -/
def upEnvOk : PhotoUpload.UploadEnv :=
  { uploadOutcome := .ok (), insertOutcome := .ok "photo-1",
    timestamp := "1700000000000", randomString := "abc123",
    getPublicUrl := fun p => "https://public/cmr-photos/" ++ p }

def fileJpg : PhotoUpload.FileInfo := { name := "IMG_0001.jpg" }

/-- Empty storage bucket and empty `cmr_photos` table. -/
def upSt0 : PhotoUpload.UploadState := { storage := [], photos := [] }

end Fixtures

end Cimer

namespace Cimer

/-! ## Helper lemmas -/

/-- `(xs.filter p).take 1` (a `limit(1)` query) is empty exactly when no
row matches. -/
theorem filter_take_one_isEmpty {α} (p : α → Bool) (xs : List α) :
    ((xs.filter p).take 1).isEmpty = !xs.any p := by
  induction xs with
  | nil => rfl
  | cons x xs ih =>
    cases h : p x <;> simp [List.filter_cons, h, List.any_cons, ih]

/-- After `updateStatus`, an existing document reads back with the new
status. -/
theorem find?_update_status (l : List Lifecycle.DocumentRow)
    (cmrId : String) (s : CmrStatus)
    (h : (l.find? (fun d => d.id = cmrId)).isSome = true) :
    (l.map (fun d => if d.id = cmrId then { d with status := s } else d)).find?
      (fun d => d.id = cmrId) = some ⟨cmrId, s⟩ := by
  induction l with
  | nil => simp at h
  | cons d rest ih =>
    by_cases hd : d.id = cmrId
    · rw [List.map_cons, List.find?_cons_of_pos _ (by simp [hd])]
      simp [hd]
    · rw [List.find?_cons_of_neg _ (by simp [hd])] at h
      rw [List.map_cons, List.find?_cons_of_neg _ (by simp [hd])]
      exact ih h

/-- `docStatus` after `updateStatus` on an existing document. -/
theorem docStatus_updateStatus (db : Lifecycle.Db) (cmrId : String)
    (s : CmrStatus) (h : (Lifecycle.docStatus db cmrId).isSome = true) :
    Lifecycle.docStatus (Lifecycle.updateStatus cmrId s db) cmrId = some s := by
  unfold Lifecycle.docStatus at h ⊢
  unfold Lifecycle.updateStatus
  have h2 : (db.documents.find? (fun d => d.id = cmrId)).isSome = true := by
    cases hf : db.documents.find? (fun d => d.id = cmrId) with
    | none => rw [hf] at h; simp at h
    | some d => rfl
  dsimp only
  rw [find?_update_status db.documents cmrId s h2]
  rfl

/-- `insertEvent` does not touch the documents table. -/
theorem docStatus_insertEvent (db : Lifecycle.Db) (e : Lifecycle.EventRow)
    (cmrId : String) :
    Lifecycle.docStatus (Lifecycle.insertEvent e db) cmrId =
      Lifecycle.docStatus db cmrId := rfl

/-! ## Claim theorems -/

/-- C1: for every document with zero shipper-signature rows,
`loading_end` fails with the domain error (the source message is
"Cannot end loading without shipper signature") after the precondition
read, and performs no mutation: the database is returned unchanged (no
Event row inserted, status untouched) and the trace holds no write. -/
theorem loading_end_without_shipper_signature (cmrId userId : String)
    (db : Lifecycle.Db)
    (h : db.signatures.filter
      (fun s => s.cmr_id = cmrId ∧ s.party_type = Lifecycle.PartyType.shipper)
      = []) :
    Lifecycle.performCmrAction cmrId userId "loading_end" db =
      ⟨.error "Cannot end loading without shipper signature", db,
        [.readSignatures cmrId .shipper]⟩ := by
  unfold Lifecycle.performCmrAction Lifecycle.endLoading
  rw [h]
  simp

/-- Witness for C1 at a concrete database. -/
theorem loading_end_without_shipper_signature_witness :
    Fixtures.dbLoadingNoSig.signatures.filter
      (fun s => s.cmr_id = "d1" ∧ s.party_type = Lifecycle.PartyType.shipper)
      = [] ∧
    Lifecycle.performCmrAction "d1" "u1" "loading_end"
      Fixtures.dbLoadingNoSig =
      ⟨.error "Cannot end loading without shipper signature",
        Fixtures.dbLoadingNoSig, [.readSignatures "d1" .shipper]⟩ :=
  ⟨rfl, loading_end_without_shipper_signature "d1" "u1"
    Fixtures.dbLoadingNoSig rfl⟩

/-- C8: for every action tag outside the four known ones,
`performCmrAction` throws `Unknown CMR action type: ...` immediately:
the database is unchanged and the trace is empty (no store read or
write). -/
theorem unknown_action_fails_fast (cmrId userId type : String)
    (db : Lifecycle.Db)
    (h1 : type ≠ "loading_start") (h2 : type ≠ "loading_end")
    (h3 : type ≠ "delivery_start") (h4 : type ≠ "delivery_end") :
    Lifecycle.performCmrAction cmrId userId type db =
      ⟨.error ("Unknown CMR action type: " ++ type), db, []⟩ := by
  unfold Lifecycle.performCmrAction
  simp [h1, h2, h3, h4]

/-- Witness for C8 at the concrete tag "archive". -/
theorem unknown_action_fails_fast_witness :
    ("archive" : String) ≠ "loading_start" ∧
    ("archive" : String) ≠ "loading_end" ∧
    ("archive" : String) ≠ "delivery_start" ∧
    ("archive" : String) ≠ "delivery_end" ∧
    Lifecycle.performCmrAction "d1" "u1" "archive" Fixtures.dbLoadingNoSig =
      ⟨.error ("Unknown CMR action type: " ++ "archive"),
        Fixtures.dbLoadingNoSig, []⟩ :=
  ⟨by decide, by decide, by decide, by decide,
    unknown_action_fails_fast "d1" "u1" "archive" Fixtures.dbLoadingNoSig
      (by decide) (by decide) (by decide) (by decide)⟩

/-- C9: on the seven-member status enumeration, `isInProgress` and
`isCompleted` are complementary: exactly one of them is true for each
status, so `IN_PROGRESS_STATUSES` and `COMPLETED_STATUSES` are disjoint
and together cover the enumeration. -/
theorem status_partition (s : String) (h : s ∈ StatusHelpers.ALL_STATUSES) :
    StatusHelpers.isInProgress s = !StatusHelpers.isCompleted s := by
  fin_cases h <;> rfl

/-- C2: `delivery_end` queries whether any reserve row exists for the
document, sets the document status to `completed_with_reserves` when one
does and to `completed` otherwise, and inserts exactly one
`delivery_end` Event whose metadata records the final status and the
reserve flag. -/
theorem delivery_end_sets_final_status (cmrId userId : String)
    (db : Lifecycle.Db)
    (h : (Lifecycle.docStatus db cmrId).isSome = true) :
    (Lifecycle.performCmrAction cmrId userId "delivery_end" db).outcome
      = .ok () ∧
    Lifecycle.docStatus
      (Lifecycle.performCmrAction cmrId userId "delivery_end" db).db cmrId =
      some (if db.reserves.any (fun r => r.cmr_id = cmrId) then
        CmrStatus.completed_with_reserves else CmrStatus.completed) ∧
    (Lifecycle.performCmrAction cmrId userId "delivery_end" db).db.events =
      db.events ++ [⟨cmrId, userId, "delivery_end",
        .deliveryEnd
          (if db.reserves.any (fun r => r.cmr_id = cmrId) then
            CmrStatus.completed_with_reserves else CmrStatus.completed)
          (db.reserves.any (fun r => r.cmr_id = cmrId))⟩] := by
  rw [show Lifecycle.performCmrAction cmrId userId "delivery_end" db =
    Lifecycle.completeDelivery cmrId userId db from rfl]
  unfold Lifecycle.completeDelivery
  dsimp only
  rw [filter_take_one_isEmpty, Bool.not_not]
  refine ⟨rfl, ?_, rfl⟩
  rw [docStatus_insertEvent]
  exact docStatus_updateStatus db cmrId _ h

/-- Witness for C2 at a concrete database with one reserve. -/
theorem delivery_end_sets_final_status_witness :
    (Lifecycle.docStatus Fixtures.dbRtdReserve "d1").isSome = true ∧
    ((Lifecycle.performCmrAction "d1" "u1" "delivery_end"
        Fixtures.dbRtdReserve).outcome = .ok () ∧
     Lifecycle.docStatus
       (Lifecycle.performCmrAction "d1" "u1" "delivery_end"
         Fixtures.dbRtdReserve).db "d1" =
       some (if Fixtures.dbRtdReserve.reserves.any (fun r => r.cmr_id = "d1")
         then CmrStatus.completed_with_reserves else CmrStatus.completed) ∧
     (Lifecycle.performCmrAction "d1" "u1" "delivery_end"
        Fixtures.dbRtdReserve).db.events =
       Fixtures.dbRtdReserve.events ++ [⟨"d1", "u1", "delivery_end",
         .deliveryEnd
           (if Fixtures.dbRtdReserve.reserves.any (fun r => r.cmr_id = "d1")
             then CmrStatus.completed_with_reserves else CmrStatus.completed)
           (Fixtures.dbRtdReserve.reserves.any (fun r => r.cmr_id = "d1"))⟩]) :=
  ⟨rfl, delivery_end_sets_final_status "d1" "u1" Fixtures.dbRtdReserve rfl⟩

/-- C3 counterexample: a document whose status is `in_transit` moves
BACKWARD to `loading` when `loading_start` is invoked on it — no action
checks the current status before writing its target status. -/
theorem lifecycle_monotonicity_counterexample :
    Lifecycle.docStatus Fixtures.dbInTransit "d1" = some .in_transit ∧
    Lifecycle.docStatus
      (Lifecycle.performCmrAction "d1" "u1" "loading_start"
        Fixtures.dbInTransit).db "d1" = some .loading ∧
    statusRank .loading < statusRank .in_transit := by decide

/-- C3 (amended): statuses never move backward provided each action is
invoked while the document's status does not exceed the action's target
status (as in the intended UI flow); invoked from a later status, an
action does move the status backward (see the counterexample). -/
theorem lifecycle_status_monotone_in_order (cmrId userId type : String)
    (db : Lifecycle.Db) (s s' : CmrStatus)
    (hs : Lifecycle.docStatus db cmrId = some s)
    (hord : statusRank s ≤ Lifecycle.actionTargetRank type)
    (hs' : Lifecycle.docStatus
      (Lifecycle.performCmrAction cmrId userId type db).db cmrId = some s') :
    statusRank s ≤ statusRank s' := by
  have hsome : (Lifecycle.docStatus db cmrId).isSome = true := by
    rw [hs]; rfl
  have hupd : ∀ (e : Lifecycle.EventRow) (st : CmrStatus),
      Lifecycle.docStatus
        (Lifecycle.updateStatus cmrId st (Lifecycle.insertEvent e db)) cmrId
        = some st := by
    intro e st
    exact docStatus_updateStatus _ cmrId st
      (by rw [docStatus_insertEvent]; exact hsome)
  unfold Lifecycle.performCmrAction at hs'
  split at hs'
  · rename_i h1
    subst h1
    unfold Lifecycle.startLoading at hs'
    dsimp only at hs'
    rw [hupd] at hs'
    injection hs' with h'
    subst h'
    exact hord
  · split at hs'
    · rename_i h1 h2
      subst h2
      unfold Lifecycle.endLoading at hs'
      dsimp only at hs'
      split at hs'
      · dsimp only at hs'
        rw [hs] at hs'
        injection hs' with h'
        subst h'
        exact Nat.le_refl _
      · dsimp only at hs'
        rw [hupd] at hs'
        injection hs' with h'
        subst h'
        exact hord
    · split at hs'
      · rename_i h1 h2 h3
        subst h3
        unfold Lifecycle.startDelivery at hs'
        dsimp only at hs'
        rw [hupd] at hs'
        injection hs' with h'
        subst h'
        exact hord
      · split at hs'
        · rename_i h1 h2 h3 h4
          subst h4
          unfold Lifecycle.completeDelivery at hs'
          dsimp only at hs'
          rw [docStatus_insertEvent,
            docStatus_updateStatus db cmrId _ hsome] at hs'
          injection hs' with h'
          subst h'
          have h5 : statusRank
              (if (!((db.reserves.filter
                  (fun r => r.cmr_id = cmrId)).take 1).isEmpty) = true then
                CmrStatus.completed_with_reserves else CmrStatus.completed)
              = 5 := by
            split <;> rfl
          rw [h5]
          exact hord
        · dsimp only at hs'
          rw [hs] at hs'
          injection hs' with h'
          subst h'
          exact Nat.le_refl _

/-- Witness for the amended C3: `loading_start` from `ready_to_load`. -/
theorem lifecycle_status_monotone_in_order_witness :
    Lifecycle.docStatus Fixtures.dbReadyToLoad "d1" = some .ready_to_load ∧
    statusRank .ready_to_load ≤ Lifecycle.actionTargetRank "loading_start" ∧
    Lifecycle.docStatus
      (Lifecycle.performCmrAction "d1" "u1" "loading_start"
        Fixtures.dbReadyToLoad).db "d1" = some .loading ∧
    statusRank .ready_to_load ≤ statusRank .loading :=
  ⟨by decide, by decide, by decide,
    lifecycle_status_monotone_in_order "d1" "u1" "loading_start"
      Fixtures.dbReadyToLoad .ready_to_load .loading (by decide) (by decide)
      (by decide)⟩

/-- C4 counterexample: `delivery_end`'s two writes happen status-update
first, event-insert second — not event-insert first as claimed. -/
theorem write_order_counterexample :
    Lifecycle.eventInsertThenStatus
      (Lifecycle.performCmrAction "d1" "u1" "delivery_end"
        Fixtures.dbRtdNoReserve).trace = false ∧
    Lifecycle.writesOf
      (Lifecycle.performCmrAction "d1" "u1" "delivery_end"
        Fixtures.dbRtdNoReserve).trace =
      [.updateStatus "d1" .completed,
       .insertEvent ⟨"d1", "u1", "delivery_end",
         .deliveryEnd .completed false⟩] := by decide

/-- C4 (amended): after the precondition read, `loading_start`,
`loading_end` (when its gate passes) and `delivery_start` insert the
Event first and update the status second; `delivery_end` performs its
two writes in the opposite order (status update first, then the Event
insert). -/
theorem write_order_amended (cmrId userId : String) (db : Lifecycle.Db)
    (hsig : db.signatures.filter
      (fun s => s.cmr_id = cmrId ∧ s.party_type = Lifecycle.PartyType.shipper)
      ≠ []) :
    Lifecycle.eventInsertThenStatus
      (Lifecycle.startLoading cmrId userId db).trace = true ∧
    Lifecycle.eventInsertThenStatus
      (Lifecycle.endLoading cmrId userId db).trace = true ∧
    Lifecycle.eventInsertThenStatus
      (Lifecycle.startDelivery cmrId userId db).trace = true ∧
    Lifecycle.statusThenEventInsert
      (Lifecycle.completeDelivery cmrId userId db).trace = true := by
  refine ⟨rfl, ?_, rfl, rfl⟩
  cases hf : db.signatures.filter
      (fun s => s.cmr_id = cmrId ∧ s.party_type = Lifecycle.PartyType.shipper)
    with
  | nil => exact absurd hf hsig
  | cons a l =>
    unfold Lifecycle.endLoading
    rw [hf]
    rfl

/-- Witness for the amended C4 at a concrete database with a shipper
signature. -/
theorem write_order_amended_witness :
    Fixtures.dbLoadingSig.signatures.filter
      (fun s => s.cmr_id = "d1" ∧ s.party_type = Lifecycle.PartyType.shipper)
      ≠ [] ∧
    (Lifecycle.eventInsertThenStatus
      (Lifecycle.startLoading "d1" "u1" Fixtures.dbLoadingSig).trace = true ∧
     Lifecycle.eventInsertThenStatus
      (Lifecycle.endLoading "d1" "u1" Fixtures.dbLoadingSig).trace = true ∧
     Lifecycle.eventInsertThenStatus
      (Lifecycle.startDelivery "d1" "u1" Fixtures.dbLoadingSig).trace = true ∧
     Lifecycle.statusThenEventInsert
      (Lifecycle.completeDelivery "d1" "u1" Fixtures.dbLoadingSig).trace
      = true) :=
  ⟨by decide, write_order_amended "d1" "u1" Fixtures.dbLoadingSig (by decide)⟩

/-- Witness for C9 at the concrete status "completed". -/
theorem status_partition_witness :
    "completed" ∈ StatusHelpers.ALL_STATUSES ∧
    StatusHelpers.isInProgress "completed" =
      !StatusHelpers.isCompleted "completed" :=
  ⟨by decide, status_partition "completed" (by decide)⟩

/-- C10: when the storage upload succeeds but the database insert
fails, `uploadCmrPhoto` removes the just-uploaded binary before
rethrowing, leaving both stores exactly as before; when both succeed,
it returns the inserted row extended with its public URL, with the
binary stored and the row appended. -/
theorem uploadCmrPhoto_storage_consistency (env : PhotoUpload.UploadEnv)
    (file : PhotoUpload.FileInfo) (cmrId userId : String)
    (st : PhotoUpload.UploadState)
    (hfresh : PhotoUpload.fileNameOf env file cmrId userId ∉ st.storage)
    (hup : env.uploadOutcome = .ok ()) :
    (∀ e, env.insertOutcome = .error e →
      PhotoUpload.uploadCmrPhoto env file cmrId userId st =
        (.error ("Failed to save photo record: " ++ e), st)) ∧
    (∀ newId, env.insertOutcome = .ok newId →
      PhotoUpload.uploadCmrPhoto env file cmrId userId st =
        (.ok ⟨⟨newId, cmrId, userId,
            PhotoUpload.fileNameOf env file cmrId userId⟩,
          env.getPublicUrl (PhotoUpload.fileNameOf env file cmrId userId)⟩,
         { storage := st.storage ++
             [PhotoUpload.fileNameOf env file cmrId userId],
           photos := st.photos ++ [⟨newId, cmrId, userId,
             PhotoUpload.fileNameOf env file cmrId userId⟩] })) := by
  have hstor : (st.storage ++
      [PhotoUpload.fileNameOf env file cmrId userId]).filter
      (fun p => p ≠ PhotoUpload.fileNameOf env file cmrId userId)
      = st.storage := by
    rw [List.filter_append]
    have h1 : st.storage.filter
        (fun p => p ≠ PhotoUpload.fileNameOf env file cmrId userId)
        = st.storage := by
      apply List.filter_eq_self.mpr
      intro a ha
      have hne : a ≠ PhotoUpload.fileNameOf env file cmrId userId :=
        fun hEq => hfresh (hEq ▸ ha)
      simp [hne]
    rw [h1]
    simp
  constructor
  · intro e he
    unfold PhotoUpload.uploadCmrPhoto
    dsimp only
    rw [if_neg hfresh, hup]
    dsimp only
    rw [he]
    dsimp only
    rw [hstor]
  · intro newId hok
    unfold PhotoUpload.uploadCmrPhoto
    dsimp only
    rw [if_neg hfresh, hup]
    dsimp only
    rw [hok]

/-- Witness for C10: insert failure at a concrete upload leaves the
stores unchanged. -/
theorem uploadCmrPhoto_storage_consistency_witness :
    PhotoUpload.fileNameOf Fixtures.upEnvInsertFail Fixtures.fileJpg
      "c1" "u1" ∉ Fixtures.upSt0.storage ∧
    Fixtures.upEnvInsertFail.uploadOutcome = .ok () ∧
    PhotoUpload.uploadCmrPhoto Fixtures.upEnvInsertFail Fixtures.fileJpg
      "c1" "u1" Fixtures.upSt0 =
      (.error ("Failed to save photo record: " ++ "constraint violated"),
        Fixtures.upSt0) :=
  ⟨by decide, rfl,
    (uploadCmrPhoto_storage_consistency Fixtures.upEnvInsertFail
      Fixtures.fileJpg "c1" "u1" Fixtures.upSt0 (by decide) rfl).1
      "constraint violated" rfl⟩

/-- C7: `checkPageBreak` compares the cursor plus the required space
against the page height minus the 20mm bottom margin; when the block
does not fit it starts a new page and resets the cursor to 20mm, and
otherwise it leaves the state untouched. -/
theorem checkPageBreak_spec (st : Pdf.GenState) (requiredSpace : Int) :
    Pdf.checkPageBreak requiredSpace st =
      if st.yPos + requiredSpace > Pdf.pageHeight - 20 then
        (true,
          { st with
              pages := st.pages ++ [st.cur]
              cur := []
              yPos := 20 })
      else (false, st) := by
  unfold Pdf.checkPageBreak Pdf.setY Pdf.addPage
  split <;> rfl

/-- The footer pass keeps the page count. -/
theorem addFooters_length (now : String) (total : Nat) :
    ∀ (i : Nat) (l : List (List Pdf.Prim)),
      (Pdf.addFooters now total i l).length = l.length := by
  intro i l
  induction l generalizing i with
  | nil => rfl
  | cons pg rest ih => simp [Pdf.addFooters, ih]

/-- Dropping the final element of `l ++ [a, b]`. -/
theorem dropLast_append_two {α} (l : List α) (a b : α) :
    (l ++ [a, b]).dropLast = l ++ [a] := by
  have h : l ++ [a, b] = (l ++ [a]) ++ [b] := by simp
  rw [h, List.dropLast_concat]

/-- Modulo each page's final primitive (the generation line), the
footer pass does not depend on the timestamp. -/
theorem addFooters_dropLast (t1 t2 : String) (total : Nat) :
    ∀ (i : Nat) (l : List (List Pdf.Prim)),
      (Pdf.addFooters t1 total i l).map List.dropLast =
      (Pdf.addFooters t2 total i l).map List.dropLast := by
  intro i l
  induction l generalizing i with
  | nil => rfl
  | cons pg rest ih =>
    simp only [Pdf.addFooters, List.map_cons]
    rw [dropLast_append_two, dropLast_append_two, ih]

/-! ### Emission lemmas for the layout state -/

@[simp]
theorem flatten_emit (p : Pdf.Prim) (st : Pdf.GenState) :
    (Pdf.emit p st).flatten = st.flatten ++ [p] := by
  unfold Pdf.emit Pdf.GenState.flatten
  simp

@[simp]
theorem flatten_addPage (st : Pdf.GenState) :
    (Pdf.addPage st).flatten = st.flatten := by
  unfold Pdf.addPage Pdf.GenState.flatten
  simp

@[simp]
theorem flatten_setY (y : Int) (st : Pdf.GenState) :
    (Pdf.setY y st).flatten = st.flatten := rfl

@[simp]
theorem flatten_moveY (d : Int) (st : Pdf.GenState) :
    (Pdf.moveY d st).flatten = st.flatten := rfl

@[simp]
theorem flatten_setFontSize (n : Int) (st : Pdf.GenState) :
    (Pdf.setFontSize n st).flatten = st.flatten := rfl

@[simp]
theorem flatten_setFontStyle (f : Pdf.FontStyle) (st : Pdf.GenState) :
    (Pdf.setFontStyle f st).flatten = st.flatten := rfl

@[simp]
theorem flatten_textAt (s : String) (x y : Int) (al : Pdf.Align)
    (st : Pdf.GenState) :
    (Pdf.textAt s x y al st).flatten =
      st.flatten ++ [.text s x y st.fontSize st.fontStyle st.textColor al] := by
  unfold Pdf.textAt
  simp

@[simp]
theorem flatten_checkPageBreak (r : Int) (st : Pdf.GenState) :
    ((Pdf.checkPageBreak r st).2).flatten = st.flatten := by
  unfold Pdf.checkPageBreak
  split <;> simp

@[simp]
theorem yPos_checkPageBreak (r : Int) (st : Pdf.GenState) :
    ((Pdf.checkPageBreak r st).2).yPos =
      if st.yPos + r > Pdf.pageHeight - 20 then 20 else st.yPos := by
  unfold Pdf.checkPageBreak
  split <;> rename_i h <;> simp [Pdf.setY, Pdf.addPage, h]

@[simp]
theorem textColor_checkPageBreak (r : Int) (st : Pdf.GenState) :
    ((Pdf.checkPageBreak r st).2).textColor = st.textColor := by
  unfold Pdf.checkPageBreak
  split <;> rfl

@[simp]
theorem fontSize_checkPageBreak (r : Int) (st : Pdf.GenState) :
    ((Pdf.checkPageBreak r st).2).fontSize = st.fontSize := by
  unfold Pdf.checkPageBreak
  split <;> rfl

@[simp]
theorem fontStyle_checkPageBreak (r : Int) (st : Pdf.GenState) :
    ((Pdf.checkPageBreak r st).2).fontStyle = st.fontStyle := by
  unfold Pdf.checkPageBreak
  split <;> rfl

@[simp]
theorem yPos_setFontSize (n : Int) (st : Pdf.GenState) :
    (Pdf.setFontSize n st).yPos = st.yPos := rfl

@[simp]
theorem yPos_setFontStyle (f : Pdf.FontStyle) (st : Pdf.GenState) :
    (Pdf.setFontStyle f st).yPos = st.yPos := rfl

@[simp]
theorem textColor_setFontSize (n : Int) (st : Pdf.GenState) :
    (Pdf.setFontSize n st).textColor = st.textColor := rfl

@[simp]
theorem textColor_setFontStyle (f : Pdf.FontStyle) (st : Pdf.GenState) :
    (Pdf.setFontStyle f st).textColor = st.textColor := rfl

@[simp]
theorem fontSize_setFontSize (n : Int) (st : Pdf.GenState) :
    (Pdf.setFontSize n st).fontSize = n := rfl

@[simp]
theorem fontSize_setFontStyle (f : Pdf.FontStyle) (st : Pdf.GenState) :
    (Pdf.setFontStyle f st).fontSize = st.fontSize := rfl

@[simp]
theorem fontStyle_setFontStyle (f : Pdf.FontStyle) (st : Pdf.GenState) :
    (Pdf.setFontStyle f st).fontStyle = f := rfl

@[simp]
theorem fontStyle_setFontSize (n : Int) (st : Pdf.GenState) :
    (Pdf.setFontSize n st).fontStyle = st.fontStyle := rfl

@[simp]
theorem truthyS_none : Pdf.truthyS none = false := rfl

/-- For a non-empty string, `truthyS (some url)` is true. -/
theorem truthyS_some_of_ne (url : String) (hne : url ≠ "") :
    Pdf.truthyS (some url) = true := by
  unfold Pdf.truthyS
  cases hc : url.isEmpty
  · simp [hc]
  · exact absurd ((String.isEmpty_iff url).mp hc) hne

/-- A failed general-photo fetch writes the `[Photo not available]`
placeholder and continues. -/
theorem renderPhotoItem_fetch_failure (env : Pdf.PdfEnv)
    (photo : Pdf.PdfPhoto) (st : Pdf.GenState) (url e : String)
    (hurl : photo.photoUrl = some url) (hne : url ≠ "")
    (hfail : env.fetchImage url = .error e) :
    (Pdf.renderPhotoItem env photo st).flatten =
      st.flatten ++ [.text "[Photo not available]" Pdf.leftMargin
        (if st.yPos + 70 > Pdf.pageHeight - 20 then 20 else st.yPos)
        8 .italic st.textColor .left] := by
  unfold Pdf.renderPhotoItem
  rw [hurl, truthyS_some_of_ne url hne]
  simp [hfail]

/-- A failed signature-image fetch writes the
`[Signature image not available]` placeholder and continues. -/
theorem renderSignatureImage_fetch_failure (env : Pdf.PdfEnv)
    (st : Pdf.GenState) (url e : String)
    (hfail : env.fetchImage url = .error e) :
    (Pdf.renderSignatureImage env url st).flatten =
      st.flatten ++ [.text "[Signature image not available]" Pdf.leftMargin
        (if st.yPos + 35 > Pdf.pageHeight - 20 then 20 else st.yPos)
        8 .italic st.textColor .left] := by
  unfold Pdf.renderSignatureImage
  simp [hfail]

/-- A failed reserve-photo fetch writes NOTHING: the reserve item
contributes only its type label (for a comment-free reserve), with no
placeholder and no image. -/
theorem renderReserveItem_photo_failure (env : Pdf.PdfEnv)
    (reserve : Pdf.PdfReserve) (st : Pdf.GenState) (url e : String)
    (hurl : reserve.photoUrl = some url) (hne : url ≠ "")
    (hcomment : reserve.comment = none)
    (hfail : env.fetchImage url = .error e) :
    (Pdf.renderReserveItem env reserve st).flatten =
      st.flatten ++ [.text ("• " ++ reserve.reserve_type)
        (Pdf.leftMargin + 3)
        (if st.yPos + 35 > Pdf.pageHeight - 20 then 20 else st.yPos)
        9 .bold st.textColor .left] := by
  unfold Pdf.renderReserveItem
  rw [hurl, hcomment, truthyS_some_of_ne url hne]
  simp [hfail]

/-- C5 (amended): a failed image fetch never aborts the export; the
pipeline continues, but the substituted text differs by image kind: a
general photo gets the `[Photo not available]` placeholder, a signature
image gets `[Signature image not available]` (neither is the claimed
"image not available"), and a failed reserve photo is skipped with no
placeholder at all. -/
theorem export_image_failure_resilience :
    (∀ (env : Pdf.PdfEnv) (photo : Pdf.PdfPhoto) (st : Pdf.GenState)
      (url e : String),
      photo.photoUrl = some url → url ≠ "" →
      env.fetchImage url = .error e →
      (Pdf.renderPhotoItem env photo st).flatten =
        st.flatten ++ [.text "[Photo not available]" Pdf.leftMargin
          (if st.yPos + 70 > Pdf.pageHeight - 20 then 20 else st.yPos)
          8 .italic st.textColor .left]) ∧
    (∀ (env : Pdf.PdfEnv) (st : Pdf.GenState) (url e : String),
      env.fetchImage url = .error e →
      (Pdf.renderSignatureImage env url st).flatten =
        st.flatten ++ [.text "[Signature image not available]"
          Pdf.leftMargin
          (if st.yPos + 35 > Pdf.pageHeight - 20 then 20 else st.yPos)
          8 .italic st.textColor .left]) ∧
    (∀ (env : Pdf.PdfEnv) (reserve : Pdf.PdfReserve) (st : Pdf.GenState)
      (url e : String),
      reserve.photoUrl = some url → url ≠ "" → reserve.comment = none →
      env.fetchImage url = .error e →
      (Pdf.renderReserveItem env reserve st).flatten =
        st.flatten ++ [.text ("• " ++ reserve.reserve_type)
          (Pdf.leftMargin + 3)
          (if st.yPos + 35 > Pdf.pageHeight - 20 then 20 else st.yPos)
          9 .bold st.textColor .left]) :=
  ⟨fun env photo st url e h1 h2 h3 =>
      renderPhotoItem_fetch_failure env photo st url e h1 h2 h3,
   fun env st url e h =>
      renderSignatureImage_fetch_failure env st url e h,
   fun env r st url e h1 h2 h3 h4 =>
      renderReserveItem_photo_failure env r st url e h1 h2 h3 h4⟩

/-- Witness for the amended C5 at concrete failing fetches. -/
theorem export_image_failure_resilience_witness :
    (Pdf.renderPhotoItem Fixtures.testEnvFail Fixtures.photoFail
        Pdf.initState).flatten =
      Pdf.initState.flatten ++ [.text "[Photo not available]"
        Pdf.leftMargin
        (if Pdf.initState.yPos + 70 > Pdf.pageHeight - 20 then 20
          else Pdf.initState.yPos)
        8 .italic Pdf.initState.textColor .left] ∧
    (Pdf.renderSignatureImage Fixtures.testEnvFail "https://p"
        Pdf.initState).flatten =
      Pdf.initState.flatten ++ [.text "[Signature image not available]"
        Pdf.leftMargin
        (if Pdf.initState.yPos + 35 > Pdf.pageHeight - 20 then 20
          else Pdf.initState.yPos)
        8 .italic Pdf.initState.textColor .left] ∧
    (Pdf.renderReserveItem Fixtures.testEnvFail Fixtures.reserveFail
        Pdf.initState).flatten =
      Pdf.initState.flatten ++ [.text
        ("• " ++ Fixtures.reserveFail.reserve_type) (Pdf.leftMargin + 3)
        (if Pdf.initState.yPos + 35 > Pdf.pageHeight - 20 then 20
          else Pdf.initState.yPos)
        9 .bold Pdf.initState.textColor .left] :=
  ⟨export_image_failure_resilience.1 Fixtures.testEnvFail
      Fixtures.photoFail Pdf.initState "https://p" "unreachable" rfl
      (by decide) rfl,
   export_image_failure_resilience.2.1 Fixtures.testEnvFail Pdf.initState
      "https://p" "unreachable" rfl,
   export_image_failure_resilience.2.2 Fixtures.testEnvFail
      Fixtures.reserveFail Pdf.initState "https://p" "unreachable" rfl
      (by decide) rfl rfl⟩

set_option maxRecDepth 8000 in
/-- C5 counterexample: the full export of an aggregate containing one
reserve with an unreachable photo completes (one page, the reserve and
the SIGNATURES section rendered) yet contains no "image not available"
placeholder — nor any placeholder at all for the failed reserve photo. -/
theorem export_placeholder_counterexample :
    Pdf.docContainsText (Pdf.generateCmrPdf Fixtures.testEnvFail "NOW"
      Fixtures.optsReserveFail) "image not available" = false ∧
    Pdf.docContainsText (Pdf.generateCmrPdf Fixtures.testEnvFail "NOW"
      Fixtures.optsReserveFail) "[Photo not available]" = false ∧
    Pdf.docContainsText (Pdf.generateCmrPdf Fixtures.testEnvFail "NOW"
      Fixtures.optsReserveFail) "Damage" = true ∧
    Pdf.docContainsText (Pdf.generateCmrPdf Fixtures.testEnvFail "NOW"
      Fixtures.optsReserveFail) "SIGNATURES" = true ∧
    Pdf.pageCount (Pdf.generateCmrPdf Fixtures.testEnvFail "NOW"
      Fixtures.optsReserveFail) = 1 := by decide

/-- C6: rendering the same aggregate twice yields an identical page
count and identical page content, except for the generation-timestamp
line stamped at the end of each page's footer (each page's final
primitive). -/
theorem generateCmrPdf_deterministic (env : Pdf.PdfEnv) (t1 t2 : String)
    (o : Pdf.GeneratePdfOptions) :
    Pdf.pageCount (Pdf.generateCmrPdf env t1 o) =
      Pdf.pageCount (Pdf.generateCmrPdf env t2 o) ∧
    (Pdf.generateCmrPdf env t1 o).pages.map List.dropLast =
      (Pdf.generateCmrPdf env t2 o).pages.map List.dropLast := by
  unfold Pdf.generateCmrPdf Pdf.pageCount
  dsimp only
  exact ⟨by rw [addFooters_length, addFooters_length],
    addFooters_dropLast t1 t2 (Pdf.mainPages env o).length 1
      (Pdf.mainPages env o)⟩

end Cimer
